import Mathlib

/-!
Shallow embedding of the TripRoute-Pro core calculators
(`backend/trucking/services.py`): the `HOSCalculator` (hours-of-service
status and violation checking), the `ELDLogGenerator` (single- and
multi-day electronic-log synthesis) and the stop-generation part of the
`RouteCalculator`.  Numeric values that Python holds as `float` are
modelled exactly as rationals (`ℚ`); Python's truncating `int()` and
banker's `round()` are modelled explicitly.  Duty-status and stop-type
tags are the literal strings the source uses.
-/

namespace TripRoute

/-- Python `int(x)` on a real value: truncation toward zero. -/
def pyInt (q : ℚ) : ℤ := if 0 ≤ q then ⌊q⌋ else ⌈q⌉

/-- Python `round(x)` (no digits): round half to even (banker's rounding). -/
def bankersRound (q : ℚ) : ℤ :=
  if Int.fract q = 1 / 2 then (if ⌊q⌋ % 2 = 0 then ⌊q⌋ else ⌊q⌋ + 1) else round q

/-- Python `round(x, 2)`: banker's rounding at two decimal places. -/
def pyRound2 (q : ℚ) : ℚ := (bankersRound (q * 100) : ℚ) / 100

/-- Python's `{n:02d}` format: decimal digits, zero-padded to width two
(call sites only pass non-negative values). -/
def pad2 (n : ℤ) : String := if n < 10 then "0" ++ toString n else toString n

/-- `HOSCalculator._format_time`: minutes rendered as `"{h}h {mm}m"`.
Python's `//`/`%` are floor division and non-negative remainder for the
positive divisor 60, i.e. `Int.fdiv`/`Int.emod`. -/
def formatTime (minutes : ℤ) : String :=
  toString (Int.fdiv minutes 60) ++ "h " ++ pad2 (Int.emod minutes 60) ++ "m"

/-- Python's `{x:.1f}` format for the non-negative rationals the source
feeds it: one decimal place, half-to-even rounding. -/
def formatOneDec (q : ℚ) : String :=
  toString (Int.fdiv (bankersRound (q * 10)) 10) ++ "." ++
    toString (Int.emod (bankersRound (q * 10)) 10)

/-- One hour-by-hour duty entry: `{'hour': ..., 'status': ...}`.  The
status is the literal string tag used by the source
(`"off-duty"`, `"on-duty"`, `"driving"`, `"sleeper-berth"`). -/
structure HourlyEntry where
  hour : ℕ
  status : String
deriving DecidableEq, Repr

/-- `driving_minutes = sum(1 for entry in time_entries if entry.get('status') == 'driving') * 60`. -/
def drivingMinutes (time_entries : List HourlyEntry) : ℕ :=
  (time_entries.countP (fun e => decide (e.status = "driving"))) * 60

/-- `on_duty_minutes = sum(1 for entry in time_entries if entry.get('status') in ['driving', 'on-duty']) * 60`. -/
def onDutyMinutes (time_entries : List HourlyEntry) : ℕ :=
  (time_entries.countP (fun e => decide (e.status = "driving" ∨ e.status = "on-duty"))) * 60

/-- `cycle_used_hours = current_cycle_hours + (on_duty_minutes / 60)`
(shared by `calculate_hos_status` and `calculate_violations`). -/
def cycleUsedHours (time_entries : List HourlyEntry) (current_cycle_hours : ℚ) : ℚ :=
  current_cycle_hours + (onDutyMinutes time_entries : ℚ) / 60

/-- Loop body of the `continuous_driving` scan in `calculate_hos_status`
(lines 178-182): increment on a `'driving'` entry, reset to zero on
anything else. -/
def hosStepEnd (acc : ℕ) (e : HourlyEntry) : ℕ :=
  if e.status = "driving" then acc + 1 else 0

/-- The `continuous_driving` scan of `calculate_hos_status` (lines
177-182); the value after the whole scan is kept. -/
def continuousDrivingEnd (time_entries : List HourlyEntry) : ℕ :=
  time_entries.foldl hosStepEnd 0

/-- Loop body of the `continuous_driving` / `max_continuous` scan in
`calculate_violations` (lines 238-243): same reset-scan, paired with the
running maximum. -/
def hosStepPair (p : ℕ × ℕ) (e : HourlyEntry) : ℕ × ℕ :=
  if e.status = "driving" then (p.1 + 1, max p.2 (p.1 + 1)) else (0, p.2)

/-- The `max_continuous` value of the scan in `calculate_violations`
(lines 236-243). -/
def maxContinuousDriving (time_entries : List HourlyEntry) : ℕ :=
  (time_entries.foldl hosStepPair ((0, 0) : ℕ × ℕ)).2

/-- Result record of `calculate_hos_status`.  The source renders
`cycle_used_hours` only through the display string; the numeric value is
kept alongside it here so theorems can speak about it. -/
structure HOSStatus where
  drive_time_left : String
  on_duty_left : String
  cycle_used_hours : ℚ
  cycle_used : String
  next_break : String
  is_compliant : Bool
deriving DecidableEq, Repr

/-- `HOSCalculator.calculate_hos_status` (services.py lines 162-200).
The source also computes `cycle_remaining = max(0, 70 - cycle_used_hours)`
but never returns it, so it is omitted. -/
def calculate_hos_status (time_entries : List HourlyEntry) (current_cycle_hours : ℚ) :
    HOSStatus :=
  let driving_minutes := drivingMinutes time_entries
  let on_duty_minutes := onDutyMinutes time_entries
  let drive_time_left_minutes : ℤ := max 0 (11 * 60 - (driving_minutes : ℤ))
  let on_duty_left_minutes : ℤ := max 0 (14 * 60 - (on_duty_minutes : ℤ))
  let cycle_used_hours := cycleUsedHours time_entries current_cycle_hours
  let continuous_driving := continuousDrivingEnd time_entries
  let next_break_minutes : ℤ := max 0 (8 * 60 - (continuous_driving : ℤ) * 60)
  { drive_time_left := formatTime drive_time_left_minutes
    on_duty_left := formatTime on_duty_left_minutes
    cycle_used_hours := cycle_used_hours
    cycle_used := formatOneDec cycle_used_hours ++ "h / 70h"
    next_break := formatTime next_break_minutes
    is_compliant :=
      decide (driving_minutes ≤ 11 * 60) && decide (on_duty_minutes ≤ 14 * 60) &&
        decide (cycle_used_hours ≤ 70) && decide (continuous_driving ≤ 8) }

/-- One HOS violation record: `{'type': ..., 'description': ..., 'severity': ...}`. -/
structure Violation where
  type : String
  description : String
  severity : String
deriving DecidableEq, Repr

/-- `HOSCalculator.calculate_violations` (services.py lines 202-252):
the four threshold checks, appended in source order. -/
def calculate_violations (time_entries : List HourlyEntry) (current_cycle_hours : ℚ) :
    List Violation :=
  let driving_minutes := drivingMinutes time_entries
  let on_duty_minutes := onDutyMinutes time_entries
  let cycle_used_hours := cycleUsedHours time_entries current_cycle_hours
  (if 11 * 60 < driving_minutes then
    [{ type := "driving_limit"
       description := "Exceeded 11-hour driving limit by " ++
         formatTime ((driving_minutes : ℤ) - 11 * 60)
       severity := "violation" }]
   else []) ++
  (if 14 * 60 < on_duty_minutes then
    [{ type := "duty_limit"
       description := "Exceeded 14-hour on-duty limit by " ++
         formatTime ((on_duty_minutes : ℤ) - 14 * 60)
       severity := "violation" }]
   else []) ++
  (if 70 < cycle_used_hours then
    [{ type := "duty_limit"
       description := "Exceeded 70-hour cycle limit by " ++
         formatOneDec (cycle_used_hours - 70) ++ " hours"
       severity := "violation" }]
   else []) ++
  (if 8 < maxContinuousDriving time_entries then
    [{ type := "break_required"
       description := "Drove " ++ toString (maxContinuousDriving time_entries) ++
         " hours without required 30-minute break"
       severity := "violation" }]
   else [])

/-- The duty status `generate_log_for_trip` assigns to a given `hour`
(0-23) of the day, for start hour `current_hour` and the trip's
`driving_hours` (services.py lines 275-293, status assignment only).
The comparisons against `current_hour + 1 + driving_hours` are the
source's int-against-float comparisons, exact over `ℚ`. -/
def statusAt (current_hour : ℕ) (driving_hours : ℚ) (hour : ℕ) : String :=
  if hour < current_hour then "off-duty"
  else if hour < current_hour + 1 then "on-duty"
  else if (hour : ℚ) < (current_hour : ℚ) + 1 + driving_hours then "driving"
  else if (hour : ℚ) < (current_hour : ℚ) + 1 + driving_hours + 1 then "on-duty"
  else "off-duty"

/-- The remark strings the hour-loop of `generate_log_for_trip` appends
at a given `hour` (at most one per hour; services.py lines 275-293,
remark emission only).  The boundary comparisons use Python
`int(...)`, i.e. `pyInt`. -/
def remarksAt (current_hour : ℕ) (driving_hours : ℚ) (hour : ℕ) : List String :=
  if hour < current_hour then []
  else if hour < current_hour + 1 then
    (if hour = current_hour then [pad2 hour ++ ":00 - Begin pickup activities"] else [])
  else if (hour : ℚ) < (current_hour : ℚ) + 1 + driving_hours then
    (if hour = current_hour + 1 then [pad2 hour ++ ":00 - Begin driving"] else [])
  else if (hour : ℚ) < (current_hour : ℚ) + 1 + driving_hours + 1 then
    (if (hour : ℤ) = pyInt ((current_hour : ℚ) + 1 + driving_hours) then
      [pad2 hour ++ ":00 - Begin dropoff activities"] else [])
  else
    (if (hour : ℤ) = pyInt ((current_hour : ℚ) + 1 + driving_hours + 1) then
      [pad2 hour ++ ":00 - Off duty"] else [])

/-- The record `generate_log_for_trip` returns. -/
structure DayLog where
  time_entries : List HourlyEntry
  driving_time : ℤ
  on_duty_time : ℤ
  off_duty_time : ℤ
  sleeper_berth_time : ℤ
  remarks : List String
  is_compliant : Bool
deriving DecidableEq, Repr

/-- `ELDLogGenerator.generate_log_for_trip` (services.py lines 264-308).
Of the `start_time` datetime only `.hour` is read, so the start hour is
passed directly; `distance_miles` is accepted and, as in the source,
never used. -/
def generate_log_for_trip (start_hour : ℕ) (distance_miles : ℚ) (driving_hours : ℚ) :
    DayLog :=
  let current_hour := start_hour
  let driving_time : ℤ := pyInt (driving_hours * 60)
  let on_duty_time : ℤ := driving_time + 120
  let off_duty_time : ℤ := 24 * 60 - on_duty_time
  { time_entries :=
      (List.range 24).map (fun hour => { hour := hour, status := statusAt current_hour driving_hours hour })
    driving_time := driving_time
    on_duty_time := on_duty_time
    off_duty_time := off_duty_time
    sleeper_berth_time := 0
    remarks := (List.range 24).foldr (fun hour acc => remarksAt current_hour driving_hours hour ++ acc) []
    is_compliant := decide (driving_hours ≤ 11) && decide (on_duty_time ≤ 14 * 60) }

/-- The slice of a Python `datetime` the multi-day loop manipulates: a
day counter (`+ timedelta(days=1)` adds one) and the hour of day
(`.replace(hour=...)` sets it). -/
structure SimDate where
  day : ℕ
  hour : ℕ
deriving DecidableEq, Repr

/-- One element of the list `generate_multi_day_logs` returns: the
source's dict `{'date': ..., 'daily_miles': round(daily_distance, 2),
**log_data}`.  The loop-local values `daily_distance` (unrounded) and
`daily_driving_hours` are recorded alongside so theorems can speak
about the amounts the loop actually consumes. -/
structure TripDayLog where
  date : SimDate
  daily_miles : ℚ
  daily_distance : ℚ
  daily_driving_hours : ℚ
  log : DayLog
deriving DecidableEq, Repr

/-- The `while remaining_hours > 0` loop of
`ELDLogGenerator.generate_multi_day_logs` (services.py lines 314-343),
written as structural recursion over a fuel counter (the loop body is
untouched; `generate_multi_day_logs` supplies fuel that provably never
runs out).  `total_driving_hours` and `total_distance` are the ORIGINAL
totals, read-only inside the loop exactly as in the source; the
source's `remaining_distance` and `day_count` variables are written but
never read, so they are omitted. -/
def generate_multi_day_logs_aux (total_driving_hours total_distance : ℚ) :
    ℕ → SimDate → ℚ → List TripDayLog
  | 0, _, _ => []
  | fuel + 1, current_date, remaining_hours =>
    if 0 < remaining_hours then
      let daily_driving_hours := min 11 remaining_hours
      let daily_distance := daily_driving_hours / total_driving_hours * total_distance
      let log_data := generate_log_for_trip current_date.hour daily_distance daily_driving_hours
      let remaining' := remaining_hours - daily_driving_hours
      let stepped : SimDate := { day := current_date.day + 1, hour := current_date.hour }
      let next_date : SimDate :=
        if 0 < remaining' then { stepped with hour := max 0 ((stepped.hour + 10) % 24) }
        else stepped
      { date := current_date
        daily_miles := pyRound2 daily_distance
        daily_distance := daily_distance
        daily_driving_hours := daily_driving_hours
        log := log_data } ::
        generate_multi_day_logs_aux total_driving_hours total_distance fuel next_date remaining'
    else []

/-- Fuel that suffices for the loop: at most `⌈total/11⌉` iterations
happen, and `⌈total⌉ + 1` is comfortably larger. -/
def multiDayFuel (total_driving_hours : ℚ) : ℕ := (⌈total_driving_hours⌉).toNat + 1

/-- `ELDLogGenerator.generate_multi_day_logs` (services.py lines 310-343). -/
def generate_multi_day_logs (start_time : SimDate) (total_distance total_driving_hours : ℚ) :
    List TripDayLog :=
  generate_multi_day_logs_aux total_driving_hours total_distance
    (multiDayFuel total_driving_hours) start_time total_driving_hours

/-- One stop record produced by `RouteCalculator._generate_stops`.
`coordinates` is the source's `[lon, lat]` pair. -/
structure Stop where
  id : String
  type : String
  location : String
  coordinates : List ℚ
  estimated_time : String
  description : String
  duration : ℕ
  required : Bool
deriving DecidableEq, Repr

/-- `RouteCalculator._generate_stops` (services.py lines 93-156):
pickup, then `int(total_distance // 1000)` fuel stops, then
`int((total_duration / 60) // 11)` rest stops, then dropoff.  Python's
`//` on floats is floor division and `range n` is empty for `n ≤ 0`,
hence `Int.toNat ∘ Int.floor`.  `current_location` and
`current_coords` are accepted and, as in the source, never used in any
emitted stop. -/
def generate_stops (current_location pickup_location dropoff_location : String)
    (current_coords pickup_coords dropoff_coords : ℚ × ℚ)
    (total_distance total_duration : ℚ) : List Stop :=
  let fuel_stops_needed := (⌊total_distance / 1000⌋).toNat
  let driving_hours := total_duration / 60
  let rest_stops_needed := (⌊driving_hours / 11⌋).toNat
  let pickupStop : Stop :=
    { id := "pickup-1", type := "pickup", location := pickup_location
      coordinates := [pickup_coords.2, pickup_coords.1]
      estimated_time := "1 hour", description := "Load pickup - 1 hour"
      duration := 60, required := true }
  let fuelStops := (List.range fuel_stops_needed).map (fun i =>
    { id := "fuel-" ++ toString (2 + i), type := "fuel"
      location := "Fuel Stop " ++ toString (i + 1)
      coordinates := [pickup_coords.2, pickup_coords.1]
      estimated_time := "30 minutes", description := "Required fuel stop"
      duration := 30, required := true : Stop })
  let restStops := (List.range rest_stops_needed).map (fun i =>
    { id := "rest-" ++ toString (2 + fuel_stops_needed + i), type := "rest"
      location := "Rest Area " ++ toString (i + 1)
      coordinates := [pickup_coords.2, pickup_coords.1]
      estimated_time := "10 hours", description := "Required 10-hour rest break"
      duration := 600, required := true : Stop })
  let dropoffStop : Stop :=
    { id := "dropoff-" ++ toString (2 + fuel_stops_needed + rest_stops_needed)
      type := "dropoff", location := dropoff_location
      coordinates := [dropoff_coords.2, dropoff_coords.1]
      estimated_time := "1 hour", description := "Unload delivery - 1 hour"
      duration := 60, required := true }
  pickupStop :: (fuelStops ++ restStops ++ [dropoffStop])

/-! ## Helper lemmas -/

/-- A single entry's status string cannot be both `"driving"` and
`"on-duty"`, so the source's combined membership count splits into the
two separate counts. -/
lemma countP_driving_or (l : List HourlyEntry) :
    l.countP (fun e => decide (e.status = "driving" ∨ e.status = "on-duty"))
      = l.countP (fun e => decide (e.status = "driving"))
        + l.countP (fun e => decide (e.status = "on-duty")) := by
  induction l with
  | nil => simp
  | cons e t ih =>
    simp only [List.countP_cons, ih]
    by_cases h1 : e.status = "driving"
    · have h2 : ¬ e.status = "on-duty" := by rw [h1]; decide
      simp only [h1, h2]
      simp
      omega
    · by_cases h2 : e.status = "on-duty" <;> simp [h1, h2] <;> omega

lemma violations_count_driving (entries : List HourlyEntry) (c : ℚ) :
    (calculate_violations entries c).countP (fun v => decide (v.type = "driving_limit"))
      = if 11 * 60 < drivingMinutes entries then 1 else 0 := by
  simp only [calculate_violations]
  split_ifs <;> simp [List.countP_append, List.countP_cons]

lemma violations_count_duty (entries : List HourlyEntry) (c : ℚ) :
    (calculate_violations entries c).countP (fun v => decide (v.type = "duty_limit"))
      = (if 14 * 60 < onDutyMinutes entries then 1 else 0)
        + (if 70 < cycleUsedHours entries c then 1 else 0) := by
  simp only [calculate_violations]
  split_ifs <;> simp [List.countP_append, List.countP_cons]

lemma violations_count_break (entries : List HourlyEntry) (c : ℚ) :
    (calculate_violations entries c).countP (fun v => decide (v.type = "break_required"))
      = if 8 < maxContinuousDriving entries then 1 else 0 := by
  simp only [calculate_violations]
  split_ifs <;> simp [List.countP_append, List.countP_cons]

lemma violations_length (entries : List HourlyEntry) (c : ℚ) :
    (calculate_violations entries c).length
      = (if 11 * 60 < drivingMinutes entries then 1 else 0)
        + (if 14 * 60 < onDutyMinutes entries then 1 else 0)
        + (if 70 < cycleUsedHours entries c then 1 else 0)
        + (if 8 < maxContinuousDriving entries then 1 else 0) := by
  simp only [calculate_violations]
  split_ifs <;> simp

/-! ## Claim theorems for the HOS evaluator -/

/-- C1: for every entries sequence and every `cycle_hours_before`,
`calculate_hos_status` reports `drive_time_left` as
`max(0, 660 − 60·d)` minutes and `on_duty_left` as
`max(0, 840 − 60·(d+o))` minutes, where `d` counts `'driving'` entries
and `o` counts `'on-duty'` entries (so on-duty minutes count both), and
its `cycle_used_hours` equals `cycle_hours_before + (d + o)` (each
matching entry contributing a full hour). -/
theorem C1_status_minute_formulas (entries : List HourlyEntry) (c : ℚ) :
    (calculate_hos_status entries c).drive_time_left
      = formatTime (max 0 (660 - 60 * (entries.countP (fun e => decide (e.status = "driving")) : ℤ)))
    ∧ (calculate_hos_status entries c).on_duty_left
      = formatTime (max 0 (840 - 60 * ((entries.countP (fun e => decide (e.status = "driving")) : ℤ)
          + (entries.countP (fun e => decide (e.status = "on-duty")) : ℤ))))
    ∧ (calculate_hos_status entries c).cycle_used_hours
      = c + ((entries.countP (fun e => decide (e.status = "driving")) : ℚ)
          + (entries.countP (fun e => decide (e.status = "on-duty")) : ℚ)) := by
  refine ⟨?_, ?_, ?_⟩
  · simp only [calculate_hos_status, drivingMinutes]
    congr 1
    push_cast
    ring_nf
  · simp only [calculate_hos_status, onDutyMinutes, countP_driving_or]
    congr 1
    push_cast
    ring_nf
  · simp only [calculate_hos_status, cycleUsedHours, onDutyMinutes, countP_driving_or]
    push_cast
    ring

/-- C3: `calculate_violations` emits one `driving_limit` violation iff
`driving_minutes > 660`; one `duty_limit` violation for
`on_duty_minutes > 840` and, independently, another `duty_limit`
violation for `cycle_used_hours > 70` (so up to two `duty_limit`
entries can coexist); one `break_required` violation iff the longest
consecutive driving streak exceeds 8; and nothing else, with at most
one violation per threshold check. -/
theorem C3_violation_emission (entries : List HourlyEntry) (c : ℚ) :
    ((calculate_violations entries c).countP (fun v => decide (v.type = "driving_limit"))
      = if 11 * 60 < drivingMinutes entries then 1 else 0)
    ∧ ((calculate_violations entries c).countP (fun v => decide (v.type = "duty_limit"))
      = (if 14 * 60 < onDutyMinutes entries then 1 else 0)
        + (if 70 < cycleUsedHours entries c then 1 else 0))
    ∧ ((calculate_violations entries c).countP (fun v => decide (v.type = "break_required"))
      = if 8 < maxContinuousDriving entries then 1 else 0)
    ∧ ((calculate_violations entries c).length
      = (if 11 * 60 < drivingMinutes entries then 1 else 0)
        + (if 14 * 60 < onDutyMinutes entries then 1 else 0)
        + (if 70 < cycleUsedHours entries c then 1 else 0)
        + (if 8 < maxContinuousDriving entries then 1 else 0))
    ∧ (∀ v ∈ calculate_violations entries c,
        v.type = "driving_limit" ∨ v.type = "duty_limit" ∨ v.type = "break_required") := by
  refine ⟨violations_count_driving entries c, violations_count_duty entries c,
    violations_count_break entries c, violations_length entries c, ?_⟩
  simp only [calculate_violations]
  split_ifs <;> intro v hv <;> simp at hv <;> rcases hv with h | h | h | h <;> simp_all

/-- C4 (amended): with an empty entries sequence both minute counts are
zero, `drive_time_left`, `on_duty_left` and `next_break` equal their
full allotments `"11h 00m"`, `"14h 00m"`, `"8h 00m"`, and
`cycle_used_hours = cycle_hours_before` — all regardless of
`cycle_hours_before`; but `is_compliant` is true and the violations
list empty exactly when `cycle_hours_before ≤ 70` (the 70-hour cycle
check still applies to the carried-in hours). -/
theorem C4_empty_entries (c : ℚ) :
    drivingMinutes [] = 0
    ∧ onDutyMinutes [] = 0
    ∧ (calculate_hos_status [] c).drive_time_left = "11h 00m"
    ∧ (calculate_hos_status [] c).on_duty_left = "14h 00m"
    ∧ (calculate_hos_status [] c).next_break = "8h 00m"
    ∧ (calculate_hos_status [] c).cycle_used_hours = c
    ∧ ((calculate_hos_status [] c).is_compliant = true ↔ c ≤ 70)
    ∧ (calculate_violations [] c = [] ↔ c ≤ 70) := by
  refine ⟨rfl, rfl, rfl, rfl, rfl, ?_, ?_, ?_⟩
  · simp [calculate_hos_status, cycleUsedHours, onDutyMinutes]
  · simp only [calculate_hos_status]
    simp [cycleUsedHours, drivingMinutes, onDutyMinutes, continuousDrivingEnd]
  · simp only [calculate_violations]
    simp only [drivingMinutes, onDutyMinutes, cycleUsedHours, maxContinuousDriving,
      List.countP_nil, List.foldl_nil]
    norm_num

/-- C4 counterexample: with empty entries and `cycle_hours_before = 71`
the code reports non-compliance and emits a violation, so the claim's
"is_compliant == true ... regardless of cycle_hours_before" is false. -/
theorem C4_counterexample :
    (calculate_hos_status [] 71).is_compliant = false
    ∧ calculate_violations [] 71 ≠ [] := by
  constructor
  · simp only [calculate_hos_status]
    simp [cycleUsedHours, drivingMinutes, onDutyMinutes, continuousDrivingEnd]
    norm_num
  · simp only [calculate_violations]
    simp only [drivingMinutes, onDutyMinutes, cycleUsedHours, maxContinuousDriving,
      List.countP_nil, List.foldl_nil]
    norm_num

/-! ## Streak characterization lemmas (for C2) -/

lemma pairScan_fst (l : List HourlyEntry) :
    ∀ c m : ℕ, (l.foldl hosStepPair (c, m)).1 = l.foldl hosStepEnd c := by
  induction l with
  | nil => intro c m; rfl
  | cons e t ih =>
    intro c m
    simp only [List.foldl_cons, hosStepPair, hosStepEnd]
    by_cases h : e.status = "driving" <;> simp only [h, ite_true, ite_false] <;> exact ih _ _

lemma pairScan_snd_le (l : List HourlyEntry) :
    ∀ c m : ℕ, m ≤ (l.foldl hosStepPair (c, m)).2 := by
  induction l with
  | nil => intro c m; exact le_refl m
  | cons e t ih =>
    intro c m
    simp only [List.foldl_cons, hosStepPair]
    by_cases h : e.status = "driving"
    · simp only [h, ite_true]
      exact le_trans (le_max_left m (c + 1)) (ih _ _)
    · simp only [h, ite_false]
      exact ih _ _

lemma pairScan_fst_le_snd (l : List HourlyEntry) :
    ∀ c m : ℕ, c ≤ m → (l.foldl hosStepPair (c, m)).1 ≤ (l.foldl hosStepPair (c, m)).2 := by
  induction l with
  | nil => intro c m hcm; exact hcm
  | cons e t ih =>
    intro c m hcm
    simp only [List.foldl_cons, hosStepPair]
    by_cases h : e.status = "driving"
    · simp only [h, ite_true]
      exact ih _ _ (le_max_right m (c + 1))
    · simp only [h, ite_false]
      exact ih _ _ (Nat.zero_le m)

lemma pairScan_run (run : List HourlyEntry) (hrun : ∀ e ∈ run, e.status = "driving") :
    ∀ c m : ℕ, c ≤ m →
      run.foldl hosStepPair (c, m) = (c + run.length, max m (c + run.length)) := by
  induction run with
  | nil =>
    intro c m hcm
    simp [Nat.max_eq_left hcm]
  | cons e t ih =>
    intro c m hcm
    have hd : e.status = "driving" := hrun e (List.mem_cons_self e t)
    simp only [List.foldl_cons, hosStepPair, hd, ite_true]
    rw [ih (fun x hx => hrun x (List.mem_cons_of_mem e hx)) (c + 1) (max m (c + 1))
      (le_max_right m (c + 1))]
    rw [Prod.mk.injEq]
    refine ⟨by simp [List.length_cons]; omega, by simp [List.length_cons]; omega⟩

lemma continuousDrivingEnd_append (l : List HourlyEntry) (e : HourlyEntry) :
    continuousDrivingEnd (l ++ [e])
      = if e.status = "driving" then continuousDrivingEnd l + 1 else 0 := by
  simp [continuousDrivingEnd, List.foldl_append, hosStepEnd]

/-- The source's reset-scan value is exactly the length of the trailing
block of consecutive `'driving'` entries: the spec's description of
`continuous_driving_hours`. -/
lemma continuousDrivingEnd_eq_trailing (l : List HourlyEntry) :
    continuousDrivingEnd l
      = (l.reverse.takeWhile (fun e => decide (e.status = "driving"))).length := by
  induction l using List.reverseRecOn with
  | nil => rfl
  | append_singleton t e ih =>
    rw [continuousDrivingEnd_append]
    rw [List.reverse_append, List.reverse_singleton, List.singleton_append,
      List.takeWhile_cons]
    by_cases h : e.status = "driving" <;> simp [h, ih]

lemma maxContinuousDriving_append (l : List HourlyEntry) (e : HourlyEntry) :
    maxContinuousDriving (l ++ [e])
      = if e.status = "driving"
          then max (maxContinuousDriving l) (continuousDrivingEnd l + 1)
          else maxContinuousDriving l := by
  simp only [maxContinuousDriving, continuousDrivingEnd, List.foldl_append, List.foldl_cons,
    List.foldl_nil, hosStepPair]
  by_cases h : e.status = "driving"
  · simp only [h, ite_true]
    rw [pairScan_fst l 0 0]
  · simp only [h, ite_false]

/-- Any block of consecutive `'driving'` entries anywhere in the
sequence is bounded by the scan's `max_continuous` value. -/
lemma run_le_maxContinuousDriving (l₁ run l₂ : List HourlyEntry)
    (hrun : ∀ e ∈ run, e.status = "driving") :
    run.length ≤ maxContinuousDriving (l₁ ++ run ++ l₂) := by
  unfold maxContinuousDriving
  rw [List.foldl_append, List.foldl_append]
  have hq : (l₁.foldl hosStepPair (0, 0)).1 ≤ (l₁.foldl hosStepPair (0, 0)).2 :=
    pairScan_fst_le_snd l₁ 0 0 (le_refl 0)
  rw [show l₁.foldl hosStepPair (0, 0)
      = ((l₁.foldl hosStepPair (0, 0)).1, (l₁.foldl hosStepPair (0, 0)).2) from rfl]
  rw [pairScan_run run hrun _ _ hq]
  refine le_trans ?_ (pairScan_snd_le l₂ _ _)
  exact le_max_of_le_right (Nat.le_add_left _ _)

/-- The scan's `max_continuous` value is achieved by an actual block of
consecutive `'driving'` entries, so it really is the maximum streak
anywhere in the sequence. -/
lemma exists_run_maxContinuousDriving (l : List HourlyEntry) :
    ∃ l₁ run l₂, l = l₁ ++ run ++ l₂ ∧ (∀ e ∈ run, e.status = "driving")
      ∧ run.length = maxContinuousDriving l := by
  induction l using List.reverseRecOn with
  | nil => exact ⟨[], [], [], rfl, by simp, rfl⟩
  | append_singleton t e ih =>
    obtain ⟨l₁, run, l₂, heq, hall, hlen⟩ := ih
    rw [maxContinuousDriving_append]
    by_cases hd : e.status = "driving"
    · by_cases hm : continuousDrivingEnd t + 1 ≤ maxContinuousDriving t
      · refine ⟨l₁, run, l₂ ++ [e], ?_, hall, ?_⟩
        · rw [heq]; simp
        · simp [hd, Nat.max_eq_left hm, hlen]
      · refine ⟨(t.reverse.dropWhile (fun x => decide (x.status = "driving"))).reverse,
          (t.reverse.takeWhile (fun x => decide (x.status = "driving"))).reverse ++ [e],
          [], ?_, ?_, ?_⟩
        · rw [List.append_nil, ← List.append_assoc]
          rw [← List.reverse_append, List.takeWhile_append_dropWhile, List.reverse_reverse]
        · intro x hx
          rcases List.mem_append.mp hx with hx | hx
          · have := List.mem_takeWhile_imp (List.mem_reverse.mp hx)
            simpa using this
          · simp at hx
            rw [hx]; exact hd
        · simp [hd]
          rw [← continuousDrivingEnd_eq_trailing]
          omega
    · refine ⟨l₁, run, l₂ ++ [e], ?_, hall, ?_⟩
      · rw [heq]; simp
      · simp [hd, hlen]

/-- C2: `calculate_hos_status` computes `next_break` from the trailing
streak of consecutive `'driving'` entries at the end of the sequence
(`next_break = max(0, 480 − 60·trailing_streak)`, any non-driving entry
resetting the count), whereas `calculate_violations` flags
`break_required` iff the maximum streak of consecutive `'driving'`
entries anywhere in the sequence exceeds 8 (bounded and achieved by an
actual consecutive driving block); the two disagree e.g. on a 9-hour
streak followed by an off-duty hour: `next_break` is `"8h 00m"` yet a
`break_required` violation is emitted. -/
theorem C2_trailing_vs_max (entries : List HourlyEntry) (c : ℚ) :
    ((calculate_hos_status entries c).next_break
      = formatTime (max 0 (480 - 60 *
          ((entries.reverse.takeWhile (fun e => decide (e.status = "driving"))).length : ℤ))))
    ∧ (0 < (calculate_violations entries c).countP (fun v => decide (v.type = "break_required"))
        ↔ 8 < maxContinuousDriving entries)
    ∧ (∀ l₁ run l₂, entries = l₁ ++ run ++ l₂ → (∀ e ∈ run, e.status = "driving")
        → run.length ≤ maxContinuousDriving entries)
    ∧ (∃ l₁ run l₂, entries = l₁ ++ run ++ l₂ ∧ (∀ e ∈ run, e.status = "driving")
        ∧ run.length = maxContinuousDriving entries)
    ∧ ((calculate_hos_status ((List.range 9).map (fun h => ⟨h, "driving"⟩)
          ++ [⟨9, "off-duty"⟩]) 0).next_break = "8h 00m"
        ∧ (calculate_violations ((List.range 9).map (fun h => ⟨h, "driving"⟩)
          ++ [⟨9, "off-duty"⟩]) 0).countP (fun v => decide (v.type = "break_required")) = 1) := by
  refine ⟨?_, ?_, ?_, ?_, ?_, ?_⟩
  · simp only [calculate_hos_status]
    congr 1
    rw [← continuousDrivingEnd_eq_trailing]
    push_cast
    ring_nf
  · rw [violations_count_break]
    split_ifs with h <;> simp [h]
  · intro l₁ run l₂ heq hall
    rw [heq]
    exact run_le_maxContinuousDriving l₁ run l₂ hall
  · exact exists_run_maxContinuousDriving entries
  · decide
  · rw [violations_count_break]
    decide

/-! ## Single-day ELD log claims -/

/-- C5 (amended): for every start hour, distance and `driving_hours ≥ 0`
the log from `generate_log_for_trip` has
`driving_time = int(driving_hours × 60)` minutes — Python `int()`
truncation, i.e. `⌊driving_hours × 60⌋` for non-negative input, not
rounding to the nearest minute — `on_duty_time = driving_time + 120`,
`off_duty_time = 1440 − on_duty_time`, `sleeper_berth_time = 0`, and
per-day `is_compliant = (driving_hours ≤ 11 ∧ on_duty_time ≤ 840)`. -/
theorem C5_single_day_log (h : ℕ) (dist dh : ℚ) (hdh : 0 ≤ dh) :
    (generate_log_for_trip h dist dh).driving_time = ⌊dh * 60⌋
    ∧ (generate_log_for_trip h dist dh).on_duty_time
        = (generate_log_for_trip h dist dh).driving_time + 120
    ∧ (generate_log_for_trip h dist dh).off_duty_time
        = 1440 - (generate_log_for_trip h dist dh).on_duty_time
    ∧ (generate_log_for_trip h dist dh).sleeper_berth_time = 0
    ∧ ((generate_log_for_trip h dist dh).is_compliant = true
        ↔ (dh ≤ 11 ∧ (generate_log_for_trip h dist dh).on_duty_time ≤ 840)) := by
  refine ⟨?_, rfl, ?_, rfl, ?_⟩
  · simp only [generate_log_for_trip, pyInt]
    rw [if_pos (mul_nonneg hdh (by norm_num))]
  · simp only [generate_log_for_trip]
    norm_num
  · simp only [generate_log_for_trip, Bool.and_eq_true, decide_eq_true_eq]
    norm_num

/-- C5 witness: the amended statement at start hour 8, distance 100,
driving_hours 3. -/
theorem C5_single_day_log_witness :
    (0 : ℚ) ≤ 3
    ∧ ((generate_log_for_trip 8 100 3).driving_time = ⌊(3 : ℚ) * 60⌋
      ∧ (generate_log_for_trip 8 100 3).on_duty_time
          = (generate_log_for_trip 8 100 3).driving_time + 120
      ∧ (generate_log_for_trip 8 100 3).off_duty_time
          = 1440 - (generate_log_for_trip 8 100 3).on_duty_time
      ∧ (generate_log_for_trip 8 100 3).sleeper_berth_time = 0
      ∧ ((generate_log_for_trip 8 100 3).is_compliant = true
          ↔ ((3 : ℚ) ≤ 11 ∧ (generate_log_for_trip 8 100 3).on_duty_time ≤ 840))) :=
  ⟨by norm_num, C5_single_day_log 8 100 3 (by norm_num)⟩

/-- C5 counterexample: at `driving_hours = 1.01` the code truncates
`60.6` minutes to 60, while rounding to the nearest minute would give
61 — so "rounded to the nearest minute" is false. -/
theorem C5_counterexample :
    (generate_log_for_trip 6 0 (101 / 100)).driving_time = 60
    ∧ round (((101 : ℚ) / 100) * 60) = 61 := by
  constructor
  · with_unfolding_all rfl
  · norm_num [round_eq]

/-- C10 (amended): for every start hour and `driving_hours`, the
`time_entries` of `generate_log_for_trip` are exactly 24 entries with
hour fields `0..23` in ascending order and statuses drawn from
`{off-duty, on-duty, driving}` only — `'sleeper-berth'` is never
generated; overflowing segments are truncated at hour 23 (no wrap), so
the 24-entry shape still holds, though the entries-derived driving
count need not undercount the reported `driving_time` (it can equal or
exceed it). -/
theorem C10_hourly_entry_shape (h : ℕ) (dist dh : ℚ) :
    (generate_log_for_trip h dist dh).time_entries.map (fun e => e.hour) = List.range 24
    ∧ ∀ e ∈ (generate_log_for_trip h dist dh).time_entries,
        e.status = "off-duty" ∨ e.status = "on-duty" ∨ e.status = "driving" := by
  constructor
  · simp [generate_log_for_trip, List.map_map, Function.comp_def]
  · intro e he
    simp only [generate_log_for_trip, List.mem_map, List.mem_range] at he
    obtain ⟨hr, -, rfl⟩ := he
    simp only [statusAt]
    split_ifs <;> simp

/-- C10 counterexample: for start hour 0 and `driving_hours = 23`
(`0 + 23 + 2 > 24`, the overflow case) the 24 entries contain 23
driving hours — 1380 minutes, exactly equal to the reported
`driving_time` of 1380 — so the claim that the entries-derived count
"undercounts the reported driving_time field" fails. -/
theorem C10_counterexample :
    ((0 : ℚ) + 23 + 2 > 24)
    ∧ ((generate_log_for_trip 0 0 23).time_entries.countP
        (fun e => decide (e.status = "driving"))) * 60 = 1380
    ∧ (generate_log_for_trip 0 0 23).driving_time = 1380 := by
  refine ⟨by norm_num, ?_, ?_⟩
  · with_unfolding_all rfl
  · with_unfolding_all rfl

/-- Field bounds for a single generated day log: needed for C9.  For
`0 ≤ driving_hours ≤ 22` every minute field is non-negative and every
entry hour is in `[0, 23]`. -/
lemma generate_log_fields (h : ℕ) (dist dh : ℚ) (h0 : 0 ≤ dh) (h22 : dh ≤ 22) :
    0 ≤ (generate_log_for_trip h dist dh).driving_time
    ∧ (generate_log_for_trip h dist dh).driving_time ≤ 1320
    ∧ 0 ≤ (generate_log_for_trip h dist dh).on_duty_time
    ∧ 0 ≤ (generate_log_for_trip h dist dh).off_duty_time
    ∧ (generate_log_for_trip h dist dh).sleeper_berth_time = 0
    ∧ ∀ e ∈ (generate_log_for_trip h dist dh).time_entries, e.hour ≤ 23 := by
  have hdt : (generate_log_for_trip h dist dh).driving_time = ⌊dh * 60⌋ := by
    simp only [generate_log_for_trip, pyInt]
    rw [if_pos (mul_nonneg h0 (by norm_num))]
  have hod : (generate_log_for_trip h dist dh).on_duty_time = ⌊dh * 60⌋ + 120 := by
    simp only [generate_log_for_trip, pyInt]
    rw [if_pos (mul_nonneg h0 (by norm_num))]
  have hoff : (generate_log_for_trip h dist dh).off_duty_time = 24 * 60 - (⌊dh * 60⌋ + 120) := by
    simp only [generate_log_for_trip, pyInt]
    rw [if_pos (mul_nonneg h0 (by norm_num))]
  have h1 : (0 : ℤ) ≤ ⌊dh * 60⌋ := Int.floor_nonneg.mpr (mul_nonneg h0 (by norm_num))
  have h2 : ⌊dh * 60⌋ ≤ 1320 := by
    have hb : dh * 60 ≤ 1320 := by nlinarith
    calc ⌊dh * 60⌋ ≤ ⌊(1320 : ℚ)⌋ := Int.floor_le_floor hb
    _ = 1320 := by norm_num
  refine ⟨by omega, by omega, by omega, by omega, rfl, ?_⟩
  intro e he
  simp only [generate_log_for_trip, List.mem_map, List.mem_range] at he
  obtain ⟨hr, hlt, rfl⟩ := he
  exact Nat.lt_succ_iff.mp hlt

/-! ## Multi-day loop lemmas -/

lemma generate_multi_day_logs_aux_nil (t d : ℚ) (fuel : ℕ) (date : SimDate) (r : ℚ)
    (hr : r ≤ 0) : generate_multi_day_logs_aux t d fuel date r = [] := by
  cases fuel with
  | zero => rfl
  | succ n =>
    simp only [generate_multi_day_logs_aux]
    rw [if_neg (not_lt.mpr hr)]

/-- Every log the loop emits records `min 11 remaining` driving hours
(positive, at most 11), the distance share
`daily_driving_hours / total_driving_hours × total_distance` of the
ORIGINAL totals, its rounded `daily_miles`, and the day log generated
from them. -/
lemma aux_mem_basic (t d : ℚ) :
    ∀ (fuel : ℕ) (date : SimDate) (r : ℚ) (ml : TripDayLog),
      ml ∈ generate_multi_day_logs_aux t d fuel date r →
      0 < ml.daily_driving_hours ∧ ml.daily_driving_hours ≤ 11
        ∧ ml.daily_distance = ml.daily_driving_hours / t * d
        ∧ ml.log = generate_log_for_trip ml.date.hour ml.daily_distance ml.daily_driving_hours
        ∧ ml.daily_miles = pyRound2 ml.daily_distance := by
  intro fuel
  induction fuel with
  | zero =>
    intro date r ml hml
    simp [generate_multi_day_logs_aux] at hml
  | succ n ih =>
    intro date r ml hml
    simp only [generate_multi_day_logs_aux] at hml
    by_cases hr : 0 < r
    · rw [if_pos hr] at hml
      rcases List.mem_cons.mp hml with rfl | hml
      · exact ⟨lt_min (by norm_num) hr, min_le_left _ _, rfl, rfl, rfl⟩
      · exact ih _ _ ml hml
    · rw [if_neg hr] at hml
      simp at hml

lemma aux_length (t d : ℚ) :
    ∀ (fuel : ℕ) (date : SimDate) (r : ℚ), 0 < r → r ≤ 11 * fuel →
      (generate_multi_day_logs_aux t d fuel date r).length = (⌈r / 11⌉).toNat := by
  intro fuel
  induction fuel with
  | zero =>
    intro date r hr hb
    exfalso
    push_cast at hb
    linarith
  | succ n ih =>
    intro date r hr hb
    simp only [generate_multi_day_logs_aux]
    rw [if_pos hr]
    simp only [List.length_cons]
    by_cases hc : r ≤ 11
    · rw [generate_multi_day_logs_aux_nil t d n _ _ (by rw [min_eq_right hc]; linarith)]
      have hceil : ⌈r / 11⌉ = 1 := by
        rw [Int.ceil_eq_iff]
        constructor
        · push_cast
          norm_num
          exact hr
        · push_cast
          rw [div_le_one (by norm_num : (0 : ℚ) < 11)]
          linarith
      rw [hceil]
      rfl
    · push_neg at hc
      rw [min_eq_left (le_of_lt hc)]
      have h1 : 0 < r - 11 := by linarith
      have h2 : r - 11 ≤ 11 * n := by
        push_cast at hb ⊢
        linarith
      rw [ih _ _ h1 h2]
      have hdiv : (r - 11) / 11 = r / 11 - 1 := by ring
      rw [hdiv, Int.ceil_sub_one]
      have hpos : (0 : ℤ) < ⌈r / 11⌉ := Int.ceil_pos.mpr (div_pos hr (by norm_num))
      omega

lemma aux_sum (t d : ℚ) :
    ∀ (fuel : ℕ) (date : SimDate) (r : ℚ), 0 ≤ r → r ≤ 11 * fuel →
      ((generate_multi_day_logs_aux t d fuel date r).map (fun ml => ml.daily_driving_hours)).sum
        = r := by
  intro fuel
  induction fuel with
  | zero =>
    intro date r h0 hb
    rw [generate_multi_day_logs_aux_nil t d 0 date r (by push_cast at hb; linarith)]
    simp only [List.map_nil, List.sum_nil]
    push_cast at hb
    linarith
  | succ n ih =>
    intro date r h0 hb
    by_cases hr : 0 < r
    · simp only [generate_multi_day_logs_aux]
      rw [if_pos hr]
      simp only [List.map_cons, List.sum_cons]
      by_cases hc : r ≤ 11
      · rw [generate_multi_day_logs_aux_nil t d n _ _ (by rw [min_eq_right hc]; linarith)]
        simp [min_eq_right hc]
      · push_neg at hc
        rw [min_eq_left (le_of_lt hc)]
        rw [ih _ _ (by linarith) (by push_cast at hb ⊢; linarith)]
        ring
    · rw [generate_multi_day_logs_aux_nil t d (n + 1) date r (le_of_not_lt hr)]
      simp only [List.map_nil, List.sum_nil]
      linarith

lemma aux_getElem (t d : ℚ) :
    ∀ (fuel : ℕ) (date : SimDate) (r : ℚ) (i : ℕ),
      i < (generate_multi_day_logs_aux t d fuel date r).length →
      ((generate_multi_day_logs_aux t d fuel date r)[i]?).map (fun ml => ml.daily_driving_hours)
        = some (min 11 (r - 11 * i)) := by
  intro fuel
  induction fuel with
  | zero =>
    intro date r i hi
    simp [generate_multi_day_logs_aux] at hi
  | succ n ih =>
    intro date r i hi
    by_cases hr : 0 < r
    · simp only [generate_multi_day_logs_aux] at hi ⊢
      rw [if_pos hr] at hi ⊢
      cases i with
      | zero => simp
      | succ j =>
        simp only [List.getElem?_cons_succ]
        simp only [List.length_cons, Nat.succ_lt_succ_iff] at hi
        by_cases hc : r ≤ 11
        · exfalso
          rw [generate_multi_day_logs_aux_nil t d n _ _ (by rw [min_eq_right hc]; linarith)]
            at hi
          simp at hi
        · push_neg at hc
          rw [min_eq_left (le_of_lt hc)] at hi ⊢
          rw [ih _ _ j hi]
          congr 1
          push_cast
          ring_nf
    · exfalso
      rw [generate_multi_day_logs_aux_nil t d (n + 1) date r (le_of_not_lt hr)] at hi
      simp at hi

/-- The fuel `generate_multi_day_logs` passes to the loop is always
enough: the loop consumes at least `11` hours per step except for the
final partial day. -/
lemma le_eleven_mul_multiDayFuel (t : ℚ) : t ≤ 11 * (multiDayFuel t : ℚ) := by
  unfold multiDayFuel
  by_cases ht : 0 < t
  · have h1 : t ≤ (⌈t⌉ : ℚ) := Int.le_ceil t
    have hnn : (0 : ℤ) ≤ ⌈t⌉ := le_of_lt (Int.ceil_pos.mpr ht)
    have h2 : ((⌈t⌉.toNat : ℕ) : ℚ) = ((⌈t⌉ : ℤ) : ℚ) := by
      rw [← Int.toNat_of_nonneg hnn]
      push_cast
      rw [Int.toNat_of_nonneg hnn]
    push_cast
    push_cast at h2
    nlinarith [h1, h2, Int.toNat_of_nonneg hnn]
  · push_neg at ht
    have : (0 : ℚ) ≤ ((⌈t⌉.toNat + 1 : ℕ) : ℚ) := by positivity
    push_cast at this ⊢
    linarith

/-! ## Multi-day claims -/

/-- C9 (amended): every minute field of a log from
`generate_log_for_trip` is non-negative provided
`0 ≤ driving_hours ≤ 22` (for `driving_hours > 22` the
`off_duty_time = 1440 − driving_time − 120` goes negative, see the
counterexample), `sleeper_berth_time` is always 0, and every produced
hourly entry has its hour in `[0, 23]`; logs produced by
`generate_multi_day_logs` satisfy all of this unconditionally since
each day consumes at most 11 driving hours. -/
theorem C9_minute_field_invariants (h : ℕ) (dist dh : ℚ) (h0 : 0 ≤ dh) (h22 : dh ≤ 22) :
    (0 ≤ (generate_log_for_trip h dist dh).driving_time
      ∧ 0 ≤ (generate_log_for_trip h dist dh).on_duty_time
      ∧ 0 ≤ (generate_log_for_trip h dist dh).off_duty_time
      ∧ (generate_log_for_trip h dist dh).sleeper_berth_time = 0
      ∧ ∀ e ∈ (generate_log_for_trip h dist dh).time_entries, e.hour ≤ 23)
    ∧ ∀ (d0 : SimDate) (tD tH : ℚ) (ml : TripDayLog),
        ml ∈ generate_multi_day_logs d0 tD tH →
        (0 ≤ ml.log.driving_time ∧ 0 ≤ ml.log.on_duty_time ∧ 0 ≤ ml.log.off_duty_time
          ∧ ml.log.sleeper_berth_time = 0
          ∧ ∀ e ∈ ml.log.time_entries, e.hour ≤ 23) := by
  constructor
  · obtain ⟨a, -, b, c, d, f⟩ := generate_log_fields h dist dh h0 h22
    exact ⟨a, b, c, d, f⟩
  · intro d0 tD tH ml hml
    simp only [generate_multi_day_logs] at hml
    obtain ⟨hpos, hle, -, hlog, -⟩ := aux_mem_basic tH tD _ _ _ ml hml
    rw [hlog]
    obtain ⟨a, -, b, c, d, f⟩ := generate_log_fields ml.date.hour ml.daily_distance
      ml.daily_driving_hours (le_of_lt hpos) (le_trans hle (by norm_num))
    exact ⟨a, b, c, d, f⟩

/-- C9 witness: the amended statement at start hour 8, distance 100,
driving_hours 5. -/
theorem C9_minute_field_invariants_witness :
    (0 : ℚ) ≤ 5
    ∧ (5 : ℚ) ≤ 22
    ∧ ((0 ≤ (generate_log_for_trip 8 100 5).driving_time
        ∧ 0 ≤ (generate_log_for_trip 8 100 5).on_duty_time
        ∧ 0 ≤ (generate_log_for_trip 8 100 5).off_duty_time
        ∧ (generate_log_for_trip 8 100 5).sleeper_berth_time = 0
        ∧ ∀ e ∈ (generate_log_for_trip 8 100 5).time_entries, e.hour ≤ 23)
      ∧ ∀ (d0 : SimDate) (tD tH : ℚ) (ml : TripDayLog),
          ml ∈ generate_multi_day_logs d0 tD tH →
          (0 ≤ ml.log.driving_time ∧ 0 ≤ ml.log.on_duty_time ∧ 0 ≤ ml.log.off_duty_time
            ∧ ml.log.sleeper_berth_time = 0
            ∧ ∀ e ∈ ml.log.time_entries, e.hour ≤ 23)) :=
  ⟨by norm_num, by norm_num, C9_minute_field_invariants 8 100 5 (by norm_num) (by norm_num)⟩

/-- C9 counterexample: the well-formed input start hour 0,
`driving_hours = 23 ≥ 0` produces `off_duty_time = −60 < 0`, so the
claim's unconditional non-negativity (for all `driving_hours ≥ 0`)
fails. -/
theorem C9_counterexample :
    (0 : ℚ) ≤ 23 ∧ (generate_log_for_trip 0 0 23).off_duty_time = -60 :=
  ⟨by norm_num, by with_unfolding_all rfl⟩

/-- C6: for `total_driving_hours > 0`, day `i` of
`generate_multi_day_logs` consumes exactly
`min 11 (total_driving_hours − 11·i)` driving hours (i.e.
`min(11, remaining_hours)` with `remaining_hours` the amount left on
entry to that iteration), and every day's distance share is
`daily_driving_hours / total_driving_hours × total_distance` with the
ORIGINAL totals as denominator and multiplicand; in particular
`total_driving_hours = 25` yields exactly the daily hours
`[11, 11, 3]`. -/
theorem C6_original_totals_apportionment (d0 : SimDate) (totalD totalH : ℚ)
    (hT : 0 < totalH) :
    (∀ i : ℕ, i < (generate_multi_day_logs d0 totalD totalH).length →
      ((generate_multi_day_logs d0 totalD totalH)[i]?).map (fun ml => ml.daily_driving_hours)
        = some (min 11 (totalH - 11 * i)))
    ∧ (∀ ml ∈ generate_multi_day_logs d0 totalD totalH,
        ml.daily_distance = ml.daily_driving_hours / totalH * totalD)
    ∧ ((generate_multi_day_logs ⟨0, 0⟩ 1000 25).map (fun ml => ml.daily_driving_hours)
        = [11, 11, 3]) := by
  refine ⟨?_, ?_, by with_unfolding_all rfl⟩
  · intro i hi
    simp only [generate_multi_day_logs] at hi ⊢
    exact aux_getElem totalH totalD _ _ _ i hi
  · intro ml hml
    simp only [generate_multi_day_logs] at hml
    exact (aux_mem_basic totalH totalD _ _ _ ml hml).2.2.1

/-- C6 witness: the statement at start date `⟨0, 0⟩`, total distance
1000, total driving hours 25. -/
theorem C6_original_totals_apportionment_witness :
    (0 : ℚ) < 25
    ∧ ((∀ i : ℕ, i < (generate_multi_day_logs ⟨0, 0⟩ 1000 25).length →
        ((generate_multi_day_logs ⟨0, 0⟩ 1000 25)[i]?).map (fun ml => ml.daily_driving_hours)
          = some (min 11 ((25 : ℚ) - 11 * i)))
      ∧ (∀ ml ∈ generate_multi_day_logs ⟨0, 0⟩ 1000 25,
          ml.daily_distance = ml.daily_driving_hours / 25 * 1000)
      ∧ ((generate_multi_day_logs ⟨0, 0⟩ 1000 25).map (fun ml => ml.daily_driving_hours)
          = [11, 11, 3])) :=
  ⟨by norm_num, C6_original_totals_apportionment ⟨0, 0⟩ 1000 25 (by norm_num)⟩

/-- C8: for `total_driving_hours > 0` the multi-day synthesis loop
terminates — the model's fuel never runs out and the produced list is
exactly `⌈total_driving_hours / 11⌉` daily logs whose driving hours sum
to precisely `total_driving_hours` (the remaining hours reach exactly
zero). -/
theorem C8_loop_termination (d0 : SimDate) (totalD totalH : ℚ) (hT : 0 < totalH) :
    (generate_multi_day_logs d0 totalD totalH).length = (⌈totalH / 11⌉).toNat
    ∧ ((generate_multi_day_logs d0 totalD totalH).map (fun ml => ml.daily_driving_hours)).sum
        = totalH := by
  constructor
  · simp only [generate_multi_day_logs]
    exact aux_length totalH totalD _ d0 totalH hT (le_eleven_mul_multiDayFuel totalH)
  · simp only [generate_multi_day_logs]
    exact aux_sum totalH totalD _ d0 totalH (le_of_lt hT) (le_eleven_mul_multiDayFuel totalH)

/-- C8 witness: at total driving hours 25 the loop yields
`⌈25/11⌉ = 3` logs summing to 25. -/
theorem C8_loop_termination_witness :
    (0 : ℚ) < 25
    ∧ ((generate_multi_day_logs ⟨0, 0⟩ 1000 25).length = (⌈(25 : ℚ) / 11⌉).toNat
      ∧ ((generate_multi_day_logs ⟨0, 0⟩ 1000 25).map (fun ml => ml.daily_driving_hours)).sum
          = 25) :=
  ⟨by norm_num, C8_loop_termination ⟨0, 0⟩ 1000 25 (by norm_num)⟩

/-! ## Stop-planner claim -/

lemma map_range_eq_replicate {β : Type} (n : ℕ) (g : ℕ → β) (c : β) (h : ∀ i, g i = c) :
    (List.range n).map g = List.replicate n c := by
  refine List.eq_replicate_iff.mpr ⟨by simp, ?_⟩
  intro b hb
  simp only [List.mem_map, List.mem_range] at hb
  obtain ⟨i, -, rfl⟩ := hb
  exact h i

/-- C7: for non-negative distance and duration, the stop sequence is
exactly one pickup (60 min, required), then `⌊distance/1000⌋` fuel
stops (30 min each, at the pickup coordinates), then
`⌊(duration/60)/11⌋` rest stops (600 min each, at the pickup
coordinates), then one dropoff (60 min, required) — in that order with
no interleaving; e.g. 2500 miles and 900 minutes yield exactly 2 fuel
stops and 1 rest stop. -/
theorem C7_stop_sequence (cl pl dl : String) (cc pc dc : ℚ × ℚ) (dist dur : ℚ)
    (hdist : 0 ≤ dist) (hdur : 0 ≤ dur) :
    ((generate_stops cl pl dl cc pc dc dist dur).map
        (fun s => (s.type, s.duration, s.coordinates, s.required))
      = ("pickup", 60, [pc.2, pc.1], true)
        :: (List.replicate (⌊dist / 1000⌋).toNat ("fuel", 30, [pc.2, pc.1], true)
          ++ List.replicate (⌊dur / 60 / 11⌋).toNat ("rest", 600, [pc.2, pc.1], true)
          ++ [("dropoff", 60, [dc.2, dc.1], true)]))
    ∧ ((generate_stops "A" "B" "C" (0, 0) (1, 2) (3, 4) 2500 900).countP
        (fun s => decide (s.type = "fuel")) = 2
      ∧ (generate_stops "A" "B" "C" (0, 0) (1, 2) (3, 4) 2500 900).countP
        (fun s => decide (s.type = "rest")) = 1) := by
  refine ⟨?_, by with_unfolding_all rfl, by with_unfolding_all rfl⟩
  simp only [generate_stops, List.map_cons, List.map_append, List.map_map,
    Function.comp_def]
  rw [map_range_eq_replicate _ _ (("fuel", 30, [pc.2, pc.1], true) : String × ℕ × List ℚ × Bool)
      (fun i => rfl)]
  rw [map_range_eq_replicate _ _ (("rest", 600, [pc.2, pc.1], true) : String × ℕ × List ℚ × Bool)
      (fun i => rfl)]
  simp

/-- C7 witness: the statement at 2500 miles and 900 minutes
(`⌊2500/1000⌋ = 2` fuel stops, `⌊15/11⌋ = 1` rest stop). -/
theorem C7_stop_sequence_witness :
    (0 : ℚ) ≤ 2500
    ∧ (0 : ℚ) ≤ 900
    ∧ (((generate_stops "A" "B" "C" (0, 0) (1, 2) (3, 4) 2500 900).map
          (fun s => (s.type, s.duration, s.coordinates, s.required))
        = ("pickup", 60, [(2 : ℚ), 1], true)
          :: (List.replicate (⌊(2500 : ℚ) / 1000⌋).toNat ("fuel", 30, [(2 : ℚ), 1], true)
            ++ List.replicate (⌊(900 : ℚ) / 60 / 11⌋).toNat ("rest", 600, [(2 : ℚ), 1], true)
            ++ [("dropoff", 60, [(4 : ℚ), 3], true)]))
      ∧ ((generate_stops "A" "B" "C" (0, 0) (1, 2) (3, 4) 2500 900).countP
          (fun s => decide (s.type = "fuel")) = 2
        ∧ (generate_stops "A" "B" "C" (0, 0) (1, 2) (3, 4) 2500 900).countP
          (fun s => decide (s.type = "rest")) = 1)) :=
  ⟨by norm_num, by norm_num,
    C7_stop_sequence "A" "B" "C" (0, 0) (1, 2) (3, 4) 2500 900 (by norm_num) (by norm_num)⟩

end TripRoute
